import Mathlib

/-!
Shallow embedding of the pump simulation server (`src/server.py`).

The Python class `PumpController` is mirrored field by field; Python
floats become rationals, timestamps become rational seconds, and each
method becomes a pure function returning the updated controller
together with the Python return value.  The body of the simulation
loop in `main` (one iteration of `while True`) is embedded as the
function `tick`, with every call to the `random` module replaced by an
explicit input field of `RandInput`, and `math.sin(2*pi*x)` modelled
by an arbitrary function argument `sin2pi`.
-/

structure PumpController where
  default_operating_level : ℤ
  target_level : ℤ
  filter_degradation_base_rate : ℚ
  filter_degradation_load_factor : ℚ
  last_command : String
  command_success : Bool
  in_alarm_state : Bool
  alarm_start_time : ℚ
  previous_target_level : ℤ
  auto_reset_minutes : ℚ
  oil_change_hours : ℤ
  min_inflow_temp : ℚ
  max_inflow_temp : ℚ
  base_bearing_temp : ℚ
  max_bearing_temp : ℚ

/-- Embedding of `PumpController.stop_pump`. -/
def stop_pump (c : PumpController) : PumpController × Bool :=
  ({ c with target_level := 0, last_command := "stopPump", command_success := true }, true)

/-- Embedding of `PumpController.start_pump`. -/
def start_pump (c : PumpController) : PumpController × Bool :=
  ({ c with target_level := c.default_operating_level,
            last_command := "startPump", command_success := true }, true)

/-- Embedding of `PumpController.set_operating_level`; returns the applied
level on success and `-1` on rejection, as the Python method does. -/
def set_operating_level (c : PumpController) (level : ℤ) : PumpController × ℤ :=
  if 0 ≤ level ∧ level ≤ 100 then
    ({ c with target_level := level,
              last_command := "setOperatingLevel(" ++ toString level ++ ")",
              command_success := true }, level)
  else
    ({ c with last_command := "setOperatingLevel(" ++ toString level ++ ")",
              command_success := false }, -1)

/-- Embedding of `PumpController.set_filter_degradation_rate`. -/
def set_filter_degradation_rate (c : PumpController) (minutes_to_clog : ℤ) :
    PumpController × Bool :=
  if minutes_to_clog ≤ 0 then
    ({ c with last_command := "setFilterDegradationRate(" ++ toString minutes_to_clog ++ ")",
              command_success := false }, false)
  else
    ({ c with filter_degradation_base_rate := 0.1,
              filter_degradation_load_factor := 100.0 / (minutes_to_clog : ℚ) - 0.1,
              last_command := "setFilterDegradationRate(" ++ toString minutes_to_clog ++ ")",
              command_success := true }, true)

/-- Embedding of `PumpController.set_auto_reset_minutes`. -/
def set_auto_reset_minutes (c : PumpController) (minutes : ℚ) : PumpController × Bool :=
  if minutes ≤ 0 then
    ({ c with last_command := "setAutoResetMinutes(" ++ toString minutes.num ++ ")",
              command_success := false }, false)
  else
    ({ c with auto_reset_minutes := minutes,
              last_command := "setAutoResetMinutes(" ++ toString minutes.num ++ ")",
              command_success := true }, true)

/-- Embedding of `PumpController.reset_filter`. -/
def reset_filter (c : PumpController) : PumpController × Bool :=
  ({ c with last_command := "resetFilter", command_success := true }, true)

/-- Embedding of `PumpController.change_oil`. -/
def change_oil (c : PumpController) : PumpController × Bool :=
  ({ c with last_command := "changeOil", command_success := true }, true)

/-- Embedding of `PumpController.enter_alarm_state`; `now` stands for
`time.time()` at the moment of the call. -/
def enter_alarm_state (c : PumpController) (alarm_type : String) (now : ℚ) : PumpController :=
  if c.in_alarm_state = false then
    { c with in_alarm_state := true,
             alarm_start_time := now,
             previous_target_level := c.target_level,
             target_level := 0 }
  else c

/-- Embedding of `PumpController.check_alarm_auto_reset`; `now` stands for
`time.time()` at the moment of the call. -/
def check_alarm_auto_reset (c : PumpController) (now : ℚ) : PumpController × Bool :=
  if c.in_alarm_state = false then (c, false)
  else
    let elapsed_minutes := (now - c.alarm_start_time) / 60
    if elapsed_minutes ≥ c.auto_reset_minutes then
      ({ c with in_alarm_state := false, target_level := c.previous_target_level }, true)
    else (c, false)

/-- The controller built by `PumpController.__init__` under the default
environment (no `PUMP_*` variables set). -/
def initController : PumpController where
  default_operating_level := 75
  target_level := 75
  filter_degradation_base_rate := 0.1
  filter_degradation_load_factor := 100.0 / 30 - 0.1
  last_command := "None"
  command_success := true
  in_alarm_state := false
  alarm_start_time := 0
  previous_target_level := 0
  auto_reset_minutes := 3.0
  oil_change_hours := 2000
  min_inflow_temp := 15.0
  max_inflow_temp := 25.0
  base_bearing_temp := 35.0
  max_bearing_temp := 80.0

/-- The public controller operations named by the alarm-invariant claim,
as an explicit command alphabet; timestamps are passed as arguments. -/
inductive COp where
  | stopPump : COp
  | startPump : COp
  | setOperatingLevel (level : ℤ) : COp
  | enterAlarmState (alarm_type : String) (now : ℚ) : COp
  | checkAlarmAutoReset (now : ℚ) : COp

/-- Apply one public operation to the controller, discarding the return
value (state effect only). -/
def applyOp (c : PumpController) : COp → PumpController
  | COp.stopPump => (stop_pump c).1
  | COp.startPump => (start_pump c).1
  | COp.setOperatingLevel level => (set_operating_level c level).1
  | COp.enterAlarmState t now => enter_alarm_state c t now
  | COp.checkAlarmAutoReset now => (check_alarm_auto_reset c now).1

/-- The invariant claimed by the spec: while `inAlarm` is true,
`targetLevel` is 0. -/
def alarmForcesZero (c : PumpController) : Prop :=
  c.in_alarm_state = true → c.target_level = 0

/-- The operations that actually preserve `alarmForcesZero`: everything
except `start` and an accepted `setOperatingLevel`. -/
def keepsAlarmTargetZero : COp → Prop
  | COp.startPump => False
  | COp.setOperatingLevel level => level < 0 ∨ 100 < level
  | _ => True

/-- The engine-owned simulation variables of the `main` loop that persist
from one iteration to the next. -/
structure SimState where
  runHoursValue : ℚ
  pumpState : String
  currentLevel : ℤ
  filterStateValue : ℚ
  oilLevelValue : ℚ
  inflowTempValue : ℚ
  bearingTempValue : ℚ

/-- One tick's draws from the `random` module, as explicit inputs:
`rampUp` is `random.randint(1, 5)`, `rampDown` is `random.randint(1, 3)`,
`inflowJitter` is `random.uniform(-0.5, 0.5)`, `bearingJitter` is
`random.uniform(-0.2, 0.2)`, `powerDraw` and `leakDraw` are the two
`random.random()` calls, and `flowJitter` and `powerJitter` are the two
`random.uniform(0.95, 1.05)` calls. -/
structure RandInput where
  rampUp : ℤ
  rampDown : ℤ
  inflowJitter : ℚ
  bearingJitter : ℚ
  powerDraw : ℚ
  leakDraw : ℚ
  flowJitter : ℚ
  powerJitter : ℚ

/-- The per-tick derived outputs written to the OPC UA variables but not
read back by later iterations. -/
structure TickOut where
  alarmValue : ℤ
  alarmType : String
  alarm_remaining_seconds : ℚ
  flowValue : ℚ
  powerValue : ℚ
  current_degradation_rate : ℤ

/-- The module-level constant `leakageProbability = 0.001`. -/
def leakageProbability : ℚ := 0.001

/-- The module-level constant `temp_cycle_hours = 24`. -/
def temp_cycle_hours : ℚ := 24

/-- Python's float `%` (used for `hours_since_start % temp_cycle_hours`). -/
def pymod (x y : ℚ) : ℚ := x - y * (Int.floor (x / y) : ℚ)

/-- Python's `int()` conversion on a float: truncation toward zero. -/
def pyint (x : ℚ) : ℤ := if x < 0 then -(Int.floor (-x)) else Int.floor x

/-- The ramp of `currentLevel` toward `targetLevel`, one loop iteration. -/
def rampLevel (targetLevel currentLevel up down : ℤ) : ℤ :=
  if currentLevel < targetLevel then min targetLevel (currentLevel + up)
  else if targetLevel < currentLevel then max targetLevel (currentLevel - down)
  else currentLevel

/-- Consumption of the one-shot manual commands `resetFilter` and
`changeOil`: each sets its variable to 100 and clears `last_command`. -/
def consumeCommands (c : PumpController) (filterStateValue oilLevelValue : ℚ) :
    PumpController × ℚ × ℚ :=
  let rf :=
    if c.last_command = "resetFilter" ∧ c.command_success = true then
      ({ c with last_command := "None" }, (100 : ℚ))
    else (c, filterStateValue)
  let co :=
    if rf.1.last_command = "changeOil" ∧ rf.1.command_success = true then
      ({ rf.1 with last_command := "None" }, (100 : ℚ))
    else (rf.1, oilLevelValue)
  (co.1, rf.2, co.2)

/-- Filter degradation: only while `currentLevel > 0`, at the configured
per-minute rates converted to per-second and scaled by the interval. -/
def degradeFilter (c : PumpController) (currentLevel : ℤ) (ui f : ℚ) : ℚ :=
  if 0 < currentLevel then
    let base_rate_per_second := c.filter_degradation_base_rate / 60.0
    let load_factor_per_second := c.filter_degradation_load_factor / 60.0
    let degradation_rate :=
      (base_rate_per_second + ((currentLevel : ℚ) / 100.0) * load_factor_per_second) * ui
    max 0 (f - degradation_rate)
  else f

/-- Oil depletion: only while the pump state is Running. -/
def depleteOil (c : PumpController) (pumpState : String) (currentLevel : ℤ) (ui oil : ℚ) : ℚ :=
  if pumpState = "Running" then
    let oil_depletion_per_hour := 100.0 / (c.oil_change_hours : ℚ)
    let oil_depletion_per_second := oil_depletion_per_hour / 3600.0
    let oil_depletion := oil_depletion_per_second * (0.5 + (currentLevel : ℚ) / 200.0) * ui
    max 0 (oil - oil_depletion)
  else oil

/-- Sinusoidal inflow temperature over a 24-hour cycle; `sin2pi x` models
`math.sin(x * 2 * math.pi)` and `jitter` the `random.uniform(-0.5, 0.5)`. -/
def computeInflowTemp (c : PumpController) (sin2pi : ℚ → ℚ)
    (cycle_start_time now jitter : ℚ) : ℚ :=
  let hours_since_start := (now - cycle_start_time) / 3600
  let cycle_position := pymod hours_since_start temp_cycle_hours / temp_cycle_hours
  let temp_amplitude := (c.max_inflow_temp - c.min_inflow_temp) / 2
  let temp_midpoint := (c.max_inflow_temp + c.min_inflow_temp) / 2
  temp_midpoint + temp_amplitude * sin2pi cycle_position + jitter

/-- Bearing temperature: cool toward base when idle, otherwise approach a
target derived from level, oil and filter factors, at bounded rates. -/
def computeBearingTemp (c : PumpController) (currentLevel : ℤ)
    (ui oil f bt jitter : ℚ) : ℚ :=
  if currentLevel = 0 then
    let bearing_cool_rate := 0.2 * ui
    max c.base_bearing_temp (bt - bearing_cool_rate)
  else
    let level_factor := (currentLevel : ℚ) / 100.0
    let oil_factor := 1.0 + max 0 ((1.0 - oil / 100.0) * 0.5)
    let filter_factor := 1.0 + max 0 ((1.0 - f / 100.0) * 0.3)
    let target_bearing_temp :=
      c.base_bearing_temp +
        (c.max_bearing_temp - c.base_bearing_temp) * level_factor * oil_factor * filter_factor +
        jitter
    if bt < target_bearing_temp then min target_bearing_temp (bt + 0.3 * ui)
    else max target_bearing_temp (bt - 0.1 * ui)

/-- The five alarm-trigger checks of one loop iteration, in source order,
each guarded by "not already in alarm"; returns the controller after any
`enter_alarm_state` call together with `alarmValue` and `alarmType`. -/
def evalAlarms (c : PumpController) (now ui f oil bt powerDraw leakDraw : ℚ) :
    PumpController × ℤ × String :=
  let e0 : PumpController × ℤ × String := (c, 0, "")
  let e1 :=
    if f < 20 ∧ e0.1.in_alarm_state = false then
      (enter_alarm_state e0.1 ("FilterClogged") now, (1 : ℤ), "FilterClogged")
    else e0
  let e2 :=
    if oil < 15 ∧ e1.1.in_alarm_state = false then
      (enter_alarm_state e1.1 ("OilLow") now, (1 : ℤ), "OilLow")
    else e1
  let e3 :=
    if 75 < bt ∧ e2.1.in_alarm_state = false then
      (enter_alarm_state e2.1 ("BearingOverheated") now, (1 : ℤ), "BearingOverheated")
    else e2
  let e4 :=
    if powerDraw < 0.002 * ui ∧ e3.1.in_alarm_state = false then
      (enter_alarm_state e3.1 ("PowerFailure") now, (1 : ℤ), "PowerFailure")
    else e3
  let leakageChance := leakageProbability * (1 + (100 - f) / 20) * ui
  if leakDraw < leakageChance ∧ e4.1.in_alarm_state = false then
    (enter_alarm_state e4.1 ("Leakage") now, (1 : ℤ), "Leakage")
  else e4

/-- Alarm time remaining, and the forcing of `alarmValue` to 1 while the
controller is in alarm. -/
def alarmTimeRemaining (c : PumpController) (now : ℚ) (alarmValue : ℤ) : ℚ × ℤ :=
  if c.in_alarm_state = true then
    let elapsed_seconds := now - c.alarm_start_time
    let total_seconds := c.auto_reset_minutes * 60
    (max 0 (total_seconds - elapsed_seconds), 1)
  else (0, alarmValue)

/-- Flow computation of one loop iteration. -/
def computeFlow (currentLevel : ℤ) (f jitter : ℚ) : ℚ :=
  let maxFlowRate := (10.0 : ℚ)
  let filterFactor := 0.5 + (f / 100) * 0.5
  let baseFlow := ((currentLevel : ℤ) : ℚ) / 100 * maxFlowRate * filterFactor
  max 0 (baseFlow * jitter)

/-- Power computation of one loop iteration. -/
def computePower (currentLevel : ℤ) (f jitter : ℚ) : ℚ :=
  let basePower := (100 : ℚ)
  if 0 < currentLevel then
    let efficiency_factor := 1 + (1 - f / 100) * 1.0
    let level_power := ((currentLevel : ℤ) : ℚ) * 5
    let clogging_resistance := (100 - f) / 100
    let clogging_power := level_power * clogging_resistance * 2
    (basePower + level_power * efficiency_factor + clogging_power) * jitter
  else 0

/-- The informational filter-degradation-rate estimate written each tick. -/
def displayDegradationRate (c : PumpController) : ℤ :=
  if 0 < c.filter_degradation_load_factor then
    pyint (100.0 / (c.filter_degradation_base_rate + c.filter_degradation_load_factor))
  else 30

/-- One iteration of the `while True` loop in `main`, given the absolute
time `now` at which `time.time()` is read this iteration, the loop start
time `cycle_start_time`, the update interval `ui` and the random draws. -/
def tick (sin2pi : ℚ → ℚ) (cycle_start_time now ui : ℚ) (r : RandInput)
    (c0 : PumpController) (s0 : SimState) : PumpController × SimState × TickOut :=
  let rc := check_alarm_auto_reset c0 now
  let c1 := rc.1
  let filter0 := if rc.2 = true then (100 : ℚ) else s0.filterStateValue
  let targetLevel := c1.target_level
  let currentLevel := rampLevel targetLevel s0.currentLevel r.rampUp r.rampDown
  let pumpState :=
    if c1.in_alarm_state = true then "Alarm"
    else if currentLevel = 0 then "Idle"
    else "Running"
  let cc := consumeCommands c1 filter0 s0.oilLevelValue
  let c2 := cc.1
  let filter1 := cc.2.1
  let oil0 := cc.2.2
  let filter2 := degradeFilter c2 currentLevel ui filter1
  let oil1 := depleteOil c2 pumpState currentLevel ui oil0
  let inflowTempValue := computeInflowTemp c2 sin2pi cycle_start_time now r.inflowJitter
  let bearingTempValue :=
    computeBearingTemp c2 currentLevel ui oil1 filter2 s0.bearingTempValue r.bearingJitter
  let ea := evalAlarms c2 now ui filter2 oil1 bearingTempValue r.powerDraw r.leakDraw
  let c3 := ea.1
  let ar := alarmTimeRemaining c3 now ea.2.1
  let flowValue := computeFlow currentLevel filter2 r.flowJitter
  let powerValue := computePower currentLevel filter2 r.powerJitter
  let runHoursValue :=
    if pumpState = "Running" then s0.runHoursValue + (ui / 3600) * 12 else s0.runHoursValue
  (c3,
   { runHoursValue := runHoursValue, pumpState := pumpState, currentLevel := currentLevel,
     filterStateValue := filter2, oilLevelValue := oil1,
     inflowTempValue := inflowTempValue, bearingTempValue := bearingTempValue },
   { alarmValue := ar.2, alarmType := ea.2.2, alarm_remaining_seconds := ar.1,
     flowValue := flowValue, powerValue := powerValue,
     current_degradation_rate := displayDegradationRate c3 })

/-- The simulation variables at the top of the `while True` loop. -/
def initSimState (c : PumpController) : SimState where
  runHoursValue := 0
  pumpState := "Idle"
  currentLevel := 0
  filterStateValue := 100
  oilLevelValue := 100
  inflowTempValue := 20.0
  bearingTempValue := c.base_bearing_temp

/-- The externally invocable commands that the OPC UA layer relays to the
controller between ticks. -/
inductive PumpCmd where
  | stopPump : PumpCmd
  | startPump : PumpCmd
  | setOperatingLevel (level : ℤ) : PumpCmd
  | setFilterDegradationRate (minutes_to_clog : ℤ) : PumpCmd
  | setAutoResetMinutes (minutes : ℚ) : PumpCmd
  | resetFilter : PumpCmd
  | changeOil : PumpCmd

/-- Apply one relayed command to the controller (state effect only). -/
def applyCmd (c : PumpController) : PumpCmd → PumpController
  | PumpCmd.stopPump => (stop_pump c).1
  | PumpCmd.startPump => (start_pump c).1
  | PumpCmd.setOperatingLevel level => (set_operating_level c level).1
  | PumpCmd.setFilterDegradationRate m => (set_filter_degradation_rate c m).1
  | PumpCmd.setAutoResetMinutes m => (set_auto_reset_minutes c m).1
  | PumpCmd.resetFilter => (reset_filter c).1
  | PumpCmd.changeOil => (change_oil c).1

/-- The inputs of one tick of a run: the commands applied since the
previous tick, the wall-clock time, the interval and the random draws. -/
structure TickIn where
  cmds : List PumpCmd
  now : ℚ
  ui : ℚ
  r : RandInput

/-- One step of a run: relay the pending commands, then run one tick. -/
def stepTick (sin2pi : ℚ → ℚ) (cycle_start_time : ℚ)
    (cs : PumpController × SimState) (ti : TickIn) : PumpController × SimState :=
  let c := List.foldl applyCmd cs.1 ti.cmds
  let t := tick sin2pi cycle_start_time ti.now ti.ui ti.r c cs.2
  (t.1, t.2.1)

/-- A whole run: fold `stepTick` over a list of tick inputs. -/
def runTicks (sin2pi : ℚ → ℚ) (cycle_start_time : ℚ) (tis : List TickIn)
    (cs : PumpController × SimState) : PumpController × SimState :=
  List.foldl (stepTick sin2pi cycle_start_time) cs tis

/-- Controller configurations reachable through `__init__` with in-range
environment values and the controller's own setters: the base rate is the
fixed `0.1`, the load factor comes from some accepted positive
minutes-to-clog, the oil-change hours are positive, and the level fields
are percentages. -/
def ctrlOK (c : PumpController) : Prop :=
  c.filter_degradation_base_rate = 0.1 ∧
  (∃ m : ℤ, 0 < m ∧ c.filter_degradation_load_factor = 100.0 / (m : ℚ) - 0.1) ∧
  0 < c.oil_change_hours ∧
  0 ≤ c.default_operating_level ∧ c.default_operating_level ≤ 100 ∧
  0 ≤ c.target_level ∧ c.target_level ≤ 100 ∧
  0 ≤ c.previous_target_level ∧ c.previous_target_level ≤ 100

/-- The ranges of the integer random draws used by the ramp:
`random.randint(1, 5)` and `random.randint(1, 3)`. -/
def randOK (r : RandInput) : Prop :=
  1 ≤ r.rampUp ∧ r.rampUp ≤ 5 ∧ 1 ≤ r.rampDown ∧ r.rampDown ≤ 3

/-- Well-formed tick inputs: in-range ramp draws, a positive interval, and
only accepted command arguments relayed between ticks (no constraint is
needed on the commands themselves: rejected ones leave the state alone). -/
def tickInOK (ti : TickIn) : Prop := randOK ti.r ∧ 0 < ti.ui

/-- The percentage bounds maintained by the engine state. -/
def simOK (s : SimState) : Prop :=
  0 ≤ s.currentLevel ∧ s.currentLevel ≤ 100 ∧
  0 ≤ s.filterStateValue ∧ s.filterStateValue ≤ 100 ∧
  0 ≤ s.oilLevelValue ∧ s.oilLevelValue ≤ 100

/-- Stage value: the controller after the tick's auto-reset check. -/
def ctrlAfterReset (c0 : PumpController) (now : ℚ) : PumpController :=
  (check_alarm_auto_reset c0 now).1

/-- Stage value: `filterStateValue` after the tick's auto-reset check. -/
def filterAfterReset (c0 : PumpController) (now : ℚ) (s0 : SimState) : ℚ :=
  if (check_alarm_auto_reset c0 now).2 = true then 100 else s0.filterStateValue

/-- Stage value: `currentLevel` after the tick's ramp step. -/
def levelAfterRamp (c0 : PumpController) (now : ℚ) (r : RandInput) (s0 : SimState) : ℤ :=
  rampLevel (ctrlAfterReset c0 now).target_level s0.currentLevel r.rampUp r.rampDown

/-- Stage value: `pumpState` as derived this tick. -/
def stateAfterRamp (c0 : PumpController) (now : ℚ) (r : RandInput) (s0 : SimState) : String :=
  if (ctrlAfterReset c0 now).in_alarm_state = true then "Alarm"
  else if levelAfterRamp c0 now r s0 = 0 then "Idle"
  else "Running"

/-- Stage value: the controller after one-shot command consumption. -/
def ctrlAfterConsume (c0 : PumpController) (now : ℚ) (s0 : SimState) : PumpController :=
  (consumeCommands (ctrlAfterReset c0 now) (filterAfterReset c0 now s0) s0.oilLevelValue).1

/-- Stage value: `filterStateValue` after one-shot command consumption. -/
def filterAfterConsume (c0 : PumpController) (now : ℚ) (s0 : SimState) : ℚ :=
  (consumeCommands (ctrlAfterReset c0 now) (filterAfterReset c0 now s0) s0.oilLevelValue).2.1

/-- Stage value: `oilLevelValue` after one-shot command consumption. -/
def oilAfterConsume (c0 : PumpController) (now : ℚ) (s0 : SimState) : ℚ :=
  (consumeCommands (ctrlAfterReset c0 now) (filterAfterReset c0 now s0) s0.oilLevelValue).2.2

/-- Stage value: `filterStateValue` after this tick's degradation. -/
def filterAfterDegrade (c0 : PumpController) (now : ℚ) (r : RandInput) (ui : ℚ)
    (s0 : SimState) : ℚ :=
  degradeFilter (ctrlAfterConsume c0 now s0) (levelAfterRamp c0 now r s0) ui
    (filterAfterConsume c0 now s0)

/-- Stage value: `oilLevelValue` after this tick's depletion. -/
def oilAfterDeplete (c0 : PumpController) (now : ℚ) (r : RandInput) (ui : ℚ)
    (s0 : SimState) : ℚ :=
  depleteOil (ctrlAfterConsume c0 now s0) (stateAfterRamp c0 now r s0)
    (levelAfterRamp c0 now r s0) ui (oilAfterConsume c0 now s0)

/-- Stage value: `bearingTempValue` after this tick's update. -/
def bearingAfter (c0 : PumpController) (now : ℚ) (r : RandInput) (ui : ℚ)
    (s0 : SimState) : ℚ :=
  computeBearingTemp (ctrlAfterConsume c0 now s0) (levelAfterRamp c0 now r s0) ui
    (oilAfterDeplete c0 now r ui s0) (filterAfterDegrade c0 now r ui s0)
    s0.bearingTempValue r.bearingJitter

/-- Iterated ramp: the evolution of `currentLevel` over successive ticks
with a fixed target, one `(randint(1,5), randint(1,3))` pair per tick. -/
def rampIter (targetLevel : ℤ) (steps : List (ℤ × ℤ)) (currentLevel : ℤ) : ℤ :=
  List.foldl (fun cl p => rampLevel targetLevel cl p.1 p.2) currentLevel steps


theorem applyOp_preserves_alarmForcesZero (c : PumpController) (op : COp)
    (hop : keepsAlarmTargetZero op) (hc : alarmForcesZero c) :
    alarmForcesZero (applyOp c op) := by
  cases op with
  | stopPump => intro _; simp [applyOp, stop_pump]
  | startPump => exact absurd hop (by simp [keepsAlarmTargetZero])
  | setOperatingLevel level =>
      have hlevel : ¬ (0 ≤ level ∧ level ≤ 100) := by
        simp only [keepsAlarmTargetZero] at hop
        omega
      intro h
      simp only [applyOp, set_operating_level, if_neg hlevel] at h ⊢
      exact hc h
  | enterAlarmState t now =>
      by_cases ha : c.in_alarm_state = false
      · intro _
        simp [applyOp, enter_alarm_state, ha]
      · intro h
        simp only [applyOp, enter_alarm_state, if_neg ha] at h ⊢
        exact hc h
  | checkAlarmAutoReset now =>
      by_cases ha : c.in_alarm_state = false
      · intro h
        simp only [applyOp, check_alarm_auto_reset, if_pos ha] at h ⊢
        exact hc h
      · by_cases he : (now - c.alarm_start_time) / 60 ≥ c.auto_reset_minutes
        · intro h
          simp [applyOp, check_alarm_auto_reset, if_neg ha, if_pos he] at h
        · intro h
          simp only [applyOp, check_alarm_auto_reset, if_neg ha, if_neg he] at h ⊢
          exact hc h

/-- Counterexample to claim C1 as stated: enter the alarm from the default
start state, then call `start()`; the controller is still in alarm but
`targetLevel` is 75, not 0, and no `checkAlarmAutoReset` cleared the alarm. -/
theorem alarm_invariant_counterexample :
    (start_pump (enter_alarm_state initController ("FilterClogged") 0)).1.in_alarm_state = true ∧
    (start_pump (enter_alarm_state initController ("FilterClogged") 0)).1.target_level = 75 ∧
    ¬ (start_pump (enter_alarm_state initController ("FilterClogged") 0)).1.target_level = 0 := by
  norm_num [enter_alarm_state, start_pump, initController]

/-- Claim C1 (amended): entering the alarm from a non-alarm state forces
`targetLevel` to 0, and the invariant "while `inAlarm` is true,
`targetLevel` is 0" is preserved by every sequence of `stop`,
`enterAlarmState`, `checkAlarmAutoReset` and rejected `setOperatingLevel`
operations; `start` and an accepted `setOperatingLevel` overwrite
`targetLevel` even while the alarm is active. -/
theorem alarm_target_zero_invariant (ops : List COp) (c : PumpController)
    (hops : ∀ op ∈ ops, keepsAlarmTargetZero op) (hc : alarmForcesZero c) :
    alarmForcesZero (List.foldl applyOp c ops) ∧
    (∀ (d : PumpController) (t : String) (n : ℚ), d.in_alarm_state = false →
      (enter_alarm_state d t n).in_alarm_state = true ∧
      (enter_alarm_state d t n).target_level = 0) := by
  constructor
  · induction ops generalizing c with
    | nil => exact hc
    | cons op ops ih =>
        exact ih _ (fun o ho => hops o (List.mem_cons_of_mem _ ho))
          (applyOp_preserves_alarmForcesZero c op (hops op (List.mem_cons_self _ _)) hc)
  · intro d t n hd
    simp [enter_alarm_state, hd]

/-- Witness for `alarm_target_zero_invariant`: a concrete alarmed controller
stays at `targetLevel = 0` under a concrete restricted operation sequence. -/
theorem alarm_target_zero_invariant_witness :
    alarmForcesZero (List.foldl applyOp (enter_alarm_state initController ("OilLow") 0)
      [COp.stopPump, COp.setOperatingLevel 200, COp.enterAlarmState ("Leakage") 1,
       COp.checkAlarmAutoReset 1]) :=
  (alarm_target_zero_invariant
    [COp.stopPump, COp.setOperatingLevel 200, COp.enterAlarmState ("Leakage") 1,
     COp.checkAlarmAutoReset 1]
    (enter_alarm_state initController ("OilLow") 0)
    (by intro op hop; fin_cases hop <;> norm_num [keepsAlarmTargetZero])
    (by intro _; norm_num [enter_alarm_state, initController])).1

/-- Claim C3: `setOperatingLevel(L)` succeeds iff `0 ≤ L ≤ 100`; on success
`targetLevel = L`, the return value is `L` and `commandSuccess` is true;
on failure `targetLevel` is unchanged, the return value is `-1` and
`commandSuccess` is false. -/
theorem set_operating_level_spec (c : PumpController) (level : ℤ) :
    ((set_operating_level c level).1.command_success = true ↔ 0 ≤ level ∧ level ≤ 100) ∧
    (0 ≤ level → level ≤ 100 →
      (set_operating_level c level).1.target_level = level ∧
      (set_operating_level c level).2 = level ∧
      (set_operating_level c level).1.command_success = true) ∧
    (¬ (0 ≤ level ∧ level ≤ 100) →
      (set_operating_level c level).1.target_level = c.target_level ∧
      (set_operating_level c level).2 = -1 ∧
      (set_operating_level c level).1.command_success = false) := by
  by_cases h : 0 ≤ level ∧ level ≤ 100
  · refine ⟨by simp [set_operating_level, h], fun _ _ => by simp [set_operating_level, h],
      fun hc => absurd h hc⟩
  · refine ⟨by simp [set_operating_level, h], fun h1 h2 => absurd ⟨h1, h2⟩ h,
      fun _ => by simp [set_operating_level, h]⟩

/-- Witness for `set_operating_level_spec` at concrete levels 50 and 200. -/
theorem set_operating_level_spec_witness :
    (set_operating_level initController 50).1.target_level = 50 ∧
    (set_operating_level initController 200).1.target_level = initController.target_level ∧
    (set_operating_level initController 200).1.command_success = false :=
  ⟨((set_operating_level_spec initController 50).2.1 (by norm_num) (by norm_num)).1,
   ((set_operating_level_spec initController 200).2.2 (by omega)).1,
   ((set_operating_level_spec initController 200).2.2 (by omega)).2.2⟩

/-- Claim C5: `checkAlarmAutoReset` is a no-op returning false when not in
alarm; when in alarm it returns true exactly when the elapsed minutes since
`alarmStartTime` reach `autoResetMinutes`, in which case it clears `inAlarm`
and restores `targetLevel` from `previousTargetLevel`; otherwise it returns
false with the state unchanged. -/
theorem check_alarm_auto_reset_spec (c : PumpController) (now : ℚ) :
    (c.in_alarm_state = false → check_alarm_auto_reset c now = (c, false)) ∧
    (c.in_alarm_state = true →
      (((check_alarm_auto_reset c now).2 = true) ↔
        (now - c.alarm_start_time) / 60 ≥ c.auto_reset_minutes) ∧
      ((now - c.alarm_start_time) / 60 ≥ c.auto_reset_minutes →
        check_alarm_auto_reset c now =
          ({ c with in_alarm_state := false, target_level := c.previous_target_level }, true)) ∧
      (¬ (now - c.alarm_start_time) / 60 ≥ c.auto_reset_minutes →
        check_alarm_auto_reset c now = (c, false))) := by
  constructor
  · intro h
    simp [check_alarm_auto_reset, h]
  · intro h
    by_cases he : (now - c.alarm_start_time) / 60 ≥ c.auto_reset_minutes
    · refine ⟨by simp [check_alarm_auto_reset, h, he], fun _ => by simp [check_alarm_auto_reset, h, he],
        fun hc => absurd he hc⟩
    · refine ⟨by simp [check_alarm_auto_reset, h, he], fun hc => absurd hc he,
        fun _ => by simp [check_alarm_auto_reset, h, he]⟩

/-- Witness for `check_alarm_auto_reset_spec`: a controller that entered the
alarm at time 0 with a 3-minute auto-reset is reset at time 300. -/
theorem check_alarm_auto_reset_spec_witness :
    check_alarm_auto_reset (enter_alarm_state initController ("FilterClogged") 0) 300 =
      ({ enter_alarm_state initController ("FilterClogged") 0 with
          in_alarm_state := false,
          target_level :=
            (enter_alarm_state initController ("FilterClogged") 0).previous_target_level },
        true) :=
  ((check_alarm_auto_reset_spec (enter_alarm_state initController ("FilterClogged") 0) 300).2
    (by norm_num [enter_alarm_state, initController])).2.1
    (by norm_num [enter_alarm_state, initController])

/-- Claim C10: an operator stop issued during an alarm is overridden by the
auto-reset: after `enterAlarmState` at `t0` followed by `stop()`, a
`checkAlarmAutoReset` at a time `t1` with enough elapsed minutes returns
true and restores `targetLevel` to the pre-alarm value captured at alarm
entry, despite the explicit stop. -/
theorem stop_during_alarm_overridden (c : PumpController) (t0 t1 : ℚ)
    (halarm : c.in_alarm_state = false)
    (helapsed : (t1 - t0) / 60 ≥ c.auto_reset_minutes) :
    (stop_pump (enter_alarm_state c ("PowerFailure") t0)).1.target_level = 0 ∧
    (check_alarm_auto_reset (stop_pump (enter_alarm_state c ("PowerFailure") t0)).1 t1).2 = true ∧
    (check_alarm_auto_reset
      (stop_pump (enter_alarm_state c ("PowerFailure") t0)).1 t1).1.target_level =
      c.target_level ∧
    (check_alarm_auto_reset
      (stop_pump (enter_alarm_state c ("PowerFailure") t0)).1 t1).1.in_alarm_state = false := by
  refine ⟨by simp [enter_alarm_state, stop_pump, halarm], ?_, ?_, ?_⟩ <;>
    simp [enter_alarm_state, stop_pump, check_alarm_auto_reset, halarm, helapsed]

/-- Witness for `stop_during_alarm_overridden` with the default controller,
alarm entry at time 0 and the check at time 300. -/
theorem stop_during_alarm_overridden_witness :
    (stop_pump (enter_alarm_state initController ("PowerFailure") 0)).1.target_level = 0 ∧
    (check_alarm_auto_reset
      (stop_pump (enter_alarm_state initController ("PowerFailure") 0)).1 300).2 = true ∧
    (check_alarm_auto_reset
      (stop_pump (enter_alarm_state initController ("PowerFailure") 0)).1 300).1.target_level =
      initController.target_level ∧
    (check_alarm_auto_reset
      (stop_pump (enter_alarm_state initController ("PowerFailure") 0)).1 300).1.in_alarm_state =
      false :=
  stop_during_alarm_overridden initController 0 300 rfl (by norm_num [initController])

theorem enter_alarm_state_in_alarm (c : PumpController) (t : String) (n : ℚ) :
    (enter_alarm_state c t n).in_alarm_state = true := by
  by_cases h : c.in_alarm_state = false
  · simp [enter_alarm_state, h]
  · simp only [Bool.not_eq_false] at h
    simp [enter_alarm_state, h]

theorem enter_alarm_state_last_command (c : PumpController) (t : String) (n : ℚ) :
    (enter_alarm_state c t n).last_command = c.last_command := by
  unfold enter_alarm_state
  split_ifs <;> rfl

theorem evalAlarms_state (c : PumpController) (now ui f oil bt pd ld : ℚ) :
    (evalAlarms c now ui f oil bt pd ld).1 = c ∨
    ∃ t : String, (evalAlarms c now ui f oil bt pd ld).1 = enter_alarm_state c t now := by
  simp only [evalAlarms]
  split_ifs with h1 h2 h3 h4 h5 <;> try simp_all [enter_alarm_state_in_alarm]
  all_goals first
    | (left; rfl)
    | (right; exact ⟨_, rfl⟩)

theorem evalAlarms_last_command (c : PumpController) (now ui f oil bt pd ld : ℚ) :
    (evalAlarms c now ui f oil bt pd ld).1.last_command = c.last_command := by
  rcases evalAlarms_state c now ui f oil bt pd ld with h | ⟨t, h⟩
  · rw [h]
  · rw [h, enter_alarm_state_last_command]

theorem tick_currentLevel (sin2pi : ℚ → ℚ) (cst now ui : ℚ) (r : RandInput)
    (c0 : PumpController) (s0 : SimState) :
    (tick sin2pi cst now ui r c0 s0).2.1.currentLevel = levelAfterRamp c0 now r s0 := rfl

theorem tick_pumpState (sin2pi : ℚ → ℚ) (cst now ui : ℚ) (r : RandInput)
    (c0 : PumpController) (s0 : SimState) :
    (tick sin2pi cst now ui r c0 s0).2.1.pumpState = stateAfterRamp c0 now r s0 := rfl

theorem tick_filterStateValue (sin2pi : ℚ → ℚ) (cst now ui : ℚ) (r : RandInput)
    (c0 : PumpController) (s0 : SimState) :
    (tick sin2pi cst now ui r c0 s0).2.1.filterStateValue =
      filterAfterDegrade c0 now r ui s0 := rfl

theorem tick_oilLevelValue (sin2pi : ℚ → ℚ) (cst now ui : ℚ) (r : RandInput)
    (c0 : PumpController) (s0 : SimState) :
    (tick sin2pi cst now ui r c0 s0).2.1.oilLevelValue = oilAfterDeplete c0 now r ui s0 := rfl

theorem tick_runHoursValue (sin2pi : ℚ → ℚ) (cst now ui : ℚ) (r : RandInput)
    (c0 : PumpController) (s0 : SimState) :
    (tick sin2pi cst now ui r c0 s0).2.1.runHoursValue =
      if stateAfterRamp c0 now r s0 = "Running" then s0.runHoursValue + (ui / 3600) * 12
      else s0.runHoursValue := rfl

theorem tick_fst (sin2pi : ℚ → ℚ) (cst now ui : ℚ) (r : RandInput)
    (c0 : PumpController) (s0 : SimState) :
    (tick sin2pi cst now ui r c0 s0).1 =
      (evalAlarms (ctrlAfterConsume c0 now s0) now ui (filterAfterDegrade c0 now r ui s0)
        (oilAfterDeplete c0 now r ui s0) (bearingAfter c0 now r ui s0)
        r.powerDraw r.leakDraw).1 := rfl

theorem rampLevel_id (tgt up down : ℤ) : rampLevel tgt tgt up down = tgt := by
  unfold rampLevel
  split_ifs <;> omega

theorem rampLevel_le_of_le (tgt cl up down : ℤ) (h : cl ≤ tgt) :
    rampLevel tgt cl up down ≤ tgt := by
  unfold rampLevel
  split_ifs <;> omega

theorem rampLevel_ge_of_ge (tgt cl up down : ℤ) (h : tgt ≤ cl) :
    tgt ≤ rampLevel tgt cl up down := by
  unfold rampLevel
  split_ifs <;> omega

theorem rampLevel_progress (tgt cl up down : ℤ) (hup : 1 ≤ up) (hdn : 1 ≤ down) :
    (tgt - rampLevel tgt cl up down).natAbs + 1 ≤ (tgt - cl).natAbs ∨
    rampLevel tgt cl up down = tgt := by
  unfold rampLevel
  split_ifs <;> omega

theorem rampIter_fixed (tgt : ℤ) (steps : List (ℤ × ℤ)) : rampIter tgt steps tgt = tgt := by
  induction steps with
  | nil => rfl
  | cons p ps ih =>
      simp only [rampIter, List.foldl_cons, rampLevel_id] at ih ⊢
      exact ih

theorem rampIter_le (tgt : ℤ) (steps : List (ℤ × ℤ)) :
    ∀ cl : ℤ, cl ≤ tgt → rampIter tgt steps cl ≤ tgt := by
  induction steps with
  | nil => intro cl h; exact h
  | cons p ps ih =>
      intro cl h
      simp only [rampIter, List.foldl_cons] at ih ⊢
      exact ih _ (rampLevel_le_of_le tgt cl p.1 p.2 h)

theorem rampIter_ge (tgt : ℤ) (steps : List (ℤ × ℤ)) :
    ∀ cl : ℤ, tgt ≤ cl → tgt ≤ rampIter tgt steps cl := by
  induction steps with
  | nil => intro cl h; exact h
  | cons p ps ih =>
      intro cl h
      simp only [rampIter, List.foldl_cons] at ih ⊢
      exact ih _ (rampLevel_ge_of_ge tgt cl p.1 p.2 h)

theorem rampIter_converges (tgt : ℤ) (steps : List (ℤ × ℤ)) :
    ∀ cl : ℤ, (∀ p ∈ steps, 1 ≤ p.1 ∧ 1 ≤ p.2) → (tgt - cl).natAbs ≤ steps.length →
      rampIter tgt steps cl = tgt := by
  induction steps with
  | nil =>
      intro cl _ hlen
      simp only [rampIter, List.foldl_nil]
      simp only [List.length_nil, Nat.le_zero] at hlen
      omega
  | cons p ps ih =>
      intro cl hsteps hlen
      simp only [rampIter, List.foldl_cons] at ih ⊢
      have hp := hsteps p (List.mem_cons_self _ _)
      rcases rampLevel_progress tgt cl p.1 p.2 hp.1 hp.2 with h | h
      · refine ih _ (fun q hq => hsteps q (List.mem_cons_of_mem _ hq)) ?_
        simp only [List.length_cons] at hlen
        omega
      · rw [h]
        have := rampIter_fixed tgt ps
        simpa only [rampIter] using this

/-- Claim C4: the tick's `currentLevel` update is exactly `rampLevel`;
within one tick, from below the level strictly increases by at most the
drawn step and never beyond the target; from above it strictly decreases
by at most the drawn step and never below the target; over iterated steps
with a fixed target the level never crosses the target and reaches it
once the number of ticks is at least the initial distance. -/
theorem ramp_monotone_no_overshoot (tgt cl up down : ℤ) (steps : List (ℤ × ℤ))
    (hup : 1 ≤ up ∧ up ≤ 5) (hdn : 1 ≤ down ∧ down ≤ 3)
    (hsteps : ∀ p ∈ steps, (1 ≤ p.1 ∧ p.1 ≤ 5) ∧ (1 ≤ p.2 ∧ p.2 ≤ 3)) :
    (∀ (sin2pi : ℚ → ℚ) (cst now ui : ℚ) (r : RandInput)
        (c0 : PumpController) (s0 : SimState),
      (tick sin2pi cst now ui r c0 s0).2.1.currentLevel =
        rampLevel (check_alarm_auto_reset c0 now).1.target_level s0.currentLevel
          r.rampUp r.rampDown) ∧
    (cl < tgt → cl + 1 ≤ rampLevel tgt cl up down ∧
      rampLevel tgt cl up down ≤ min tgt (cl + up)) ∧
    (tgt < cl → rampLevel tgt cl up down ≤ cl - 1 ∧
      max tgt (cl - down) ≤ rampLevel tgt cl up down) ∧
    (cl ≤ tgt → rampIter tgt steps cl ≤ tgt) ∧
    (tgt ≤ cl → tgt ≤ rampIter tgt steps cl) ∧
    ((tgt - cl).natAbs ≤ steps.length → rampIter tgt steps cl = tgt) := by
  refine ⟨fun _ _ _ _ _ _ _ => rfl, ?_, ?_, rampIter_le tgt steps cl, rampIter_ge tgt steps cl,
    rampIter_converges tgt steps cl (fun p hp => ⟨(hsteps p hp).1.1, (hsteps p hp).2.1⟩)⟩
  · intro h
    unfold rampLevel
    split_ifs <;> omega
  · intro h
    unfold rampLevel
    split_ifs <;> omega

/-- Witness for `ramp_monotone_no_overshoot`: starting at level 0 with
target 75, 75 maximal steps reach the target exactly and 10 steps stay
at or below it. -/
theorem ramp_monotone_no_overshoot_witness :
    rampIter 75 (List.replicate 75 ((5 : ℤ), (3 : ℤ))) 0 = 75 ∧
    rampIter 75 (List.replicate 10 ((5 : ℤ), (3 : ℤ))) 0 ≤ 75 :=
  ⟨(ramp_monotone_no_overshoot 75 0 5 3 (List.replicate 75 ((5 : ℤ), (3 : ℤ)))
      (by norm_num) (by norm_num)
      (by intro p hp; rw [List.eq_of_mem_replicate hp]; norm_num)).2.2.2.2.2
      (by simp),
   (ramp_monotone_no_overshoot 75 0 5 3 (List.replicate 10 ((5 : ℤ), (3 : ℤ)))
      (by norm_num) (by norm_num)
      (by intro p hp; rw [List.eq_of_mem_replicate hp]; norm_num)).2.2.2.1
      (by norm_num)⟩

theorem ctrlOK_check (c : PumpController) (now : ℚ) (hc : ctrlOK c) :
    ctrlOK (check_alarm_auto_reset c now).1 := by
  obtain ⟨h1, h2, h3, h4, h5, h6, h7, h8, h9⟩ := hc
  simp only [check_alarm_auto_reset]
  split_ifs
  · exact ⟨h1, h2, h3, h4, h5, h6, h7, h8, h9⟩
  · exact ⟨h1, h2, h3, h4, h5, h8, h9, h8, h9⟩
  · exact ⟨h1, h2, h3, h4, h5, h6, h7, h8, h9⟩

theorem ctrlOK_enter (c : PumpController) (t : String) (now : ℚ) (hc : ctrlOK c) :
    ctrlOK (enter_alarm_state c t now) := by
  obtain ⟨h1, h2, h3, h4, h5, h6, h7, h8, h9⟩ := hc
  unfold enter_alarm_state
  split_ifs
  · exact ⟨h1, h2, h3, h4, h5, le_refl 0, by norm_num, h6, h7⟩
  · exact ⟨h1, h2, h3, h4, h5, h6, h7, h8, h9⟩

theorem consumeCommands_state (c : PumpController) (f o : ℚ) :
    ∃ lc : String, (consumeCommands c f o).1 = { c with last_command := lc } := by
  simp only [consumeCommands]
  split_ifs <;> first | exact ⟨"None", rfl⟩ | exact ⟨c.last_command, rfl⟩

theorem consumeCommands_filter (c : PumpController) (f o : ℚ) :
    (consumeCommands c f o).2.1 = f ∨ (consumeCommands c f o).2.1 = 100 := by
  simp only [consumeCommands]
  split_ifs <;> simp

theorem consumeCommands_oil (c : PumpController) (f o : ℚ) :
    (consumeCommands c f o).2.2 = o ∨ (consumeCommands c f o).2.2 = 100 := by
  simp only [consumeCommands]
  split_ifs <;> simp

theorem ctrlOK_consume (c : PumpController) (f o : ℚ) (hc : ctrlOK c) :
    ctrlOK (consumeCommands c f o).1 := by
  obtain ⟨lc, h⟩ := consumeCommands_state c f o
  rw [h]
  exact hc

theorem rampLevel_mem (tgt cl up down : ℤ) (h0 : 0 ≤ cl) (h100 : cl ≤ 100)
    (ht0 : 0 ≤ tgt) (ht100 : tgt ≤ 100) (hup : 0 ≤ up) (hdn : 0 ≤ down) :
    0 ≤ rampLevel tgt cl up down ∧ rampLevel tgt cl up down ≤ 100 := by
  unfold rampLevel
  split_ifs <;> constructor <;> omega

theorem degradeFilter_nonneg_le (c : PumpController) (currentLevel : ℤ) (ui f : ℚ)
    (hbase : c.filter_degradation_base_rate = 0.1)
    (hlf : ∃ m : ℤ, 0 < m ∧ c.filter_degradation_load_factor = 100.0 / (m : ℚ) - 0.1)
    (hcl : currentLevel ≤ 100) (hui : 0 ≤ ui) (hf : 0 ≤ f) :
    0 ≤ degradeFilter c currentLevel ui f ∧ degradeFilter c currentLevel ui f ≤ f := by
  obtain ⟨m, hm, hlfe⟩ := hlf
  simp only [degradeFilter]
  split_ifs with h
  · refine ⟨le_max_left 0 _, max_le hf (sub_le_self f ?_)⟩
    rw [hbase, hlfe]
    have hmq : (0 : ℚ) < (m : ℚ) := by exact_mod_cast hm
    have hcl0 : (0 : ℚ) < ((currentLevel : ℤ) : ℚ) := by exact_mod_cast h
    have hcl100 : ((currentLevel : ℤ) : ℚ) ≤ 100 := by exact_mod_cast hcl
    have hb : (0 : ℚ) < 100 / (m : ℚ) := by positivity
    apply mul_nonneg _ hui
    nlinarith [mul_nonneg hcl0.le hb.le]
  · exact ⟨hf, le_refl f⟩

theorem depleteOil_nonneg_le (c : PumpController) (ps : String) (currentLevel : ℤ) (ui oil : ℚ)
    (hoch : 0 < c.oil_change_hours) (hcl : 0 ≤ currentLevel) (hui : 0 ≤ ui) (hoil : 0 ≤ oil) :
    0 ≤ depleteOil c ps currentLevel ui oil ∧ depleteOil c ps currentLevel ui oil ≤ oil := by
  simp only [depleteOil]
  split_ifs with h
  · refine ⟨le_max_left 0 _, max_le hoil (sub_le_self oil ?_)⟩
    have hochq : (0 : ℚ) < (c.oil_change_hours : ℚ) := by exact_mod_cast hoch
    have hclq : (0 : ℚ) ≤ ((currentLevel : ℤ) : ℚ) := by exact_mod_cast hcl
    have h1 : (0 : ℚ) ≤ 100.0 / (c.oil_change_hours : ℚ) / 3600.0 := by positivity
    have h2 : (0 : ℚ) ≤ 0.5 + ((currentLevel : ℤ) : ℚ) / 200.0 := by linarith
    exact mul_nonneg (mul_nonneg h1 h2) hui
  · exact ⟨hoil, le_refl oil⟩

theorem levelAfterRamp_bounds (c0 : PumpController) (now : ℚ) (r : RandInput) (s0 : SimState)
    (hc : ctrlOK c0) (hr : randOK r) (hs : simOK s0) :
    0 ≤ levelAfterRamp c0 now r s0 ∧ levelAfterRamp c0 now r s0 ≤ 100 := by
  have hc1 := ctrlOK_check c0 now hc
  obtain ⟨-, -, -, -, -, h6, h7, -, -⟩ := hc1
  obtain ⟨hs1, hs2, -, -, -, -⟩ := hs
  obtain ⟨hr1, -, hr3, -⟩ := hr
  exact rampLevel_mem _ _ _ _ hs1 hs2 h6 h7 (by omega) (by omega)

theorem filterAfterReset_bounds (c0 : PumpController) (now : ℚ) (s0 : SimState) (hs : simOK s0) :
    0 ≤ filterAfterReset c0 now s0 ∧ filterAfterReset c0 now s0 ≤ 100 := by
  obtain ⟨-, -, h3, h4, -, -⟩ := hs
  unfold filterAfterReset
  split_ifs
  · norm_num
  · exact ⟨h3, h4⟩

theorem filterAfterConsume_bounds (c0 : PumpController) (now : ℚ) (s0 : SimState)
    (hs : simOK s0) :
    0 ≤ filterAfterConsume c0 now s0 ∧ filterAfterConsume c0 now s0 ≤ 100 := by
  have hfr := filterAfterReset_bounds c0 now s0 hs
  unfold filterAfterConsume
  rcases consumeCommands_filter (ctrlAfterReset c0 now) (filterAfterReset c0 now s0)
      s0.oilLevelValue with h | h
  · rw [h]; exact hfr
  · rw [h]; norm_num

theorem oilAfterConsume_bounds (c0 : PumpController) (now : ℚ) (s0 : SimState)
    (hs : simOK s0) :
    0 ≤ oilAfterConsume c0 now s0 ∧ oilAfterConsume c0 now s0 ≤ 100 := by
  obtain ⟨-, -, -, -, h5, h6⟩ := hs
  unfold oilAfterConsume
  rcases consumeCommands_oil (ctrlAfterReset c0 now) (filterAfterReset c0 now s0)
      s0.oilLevelValue with h | h
  · rw [h]; exact ⟨h5, h6⟩
  · rw [h]; norm_num

theorem filterAfterDegrade_bounds (c0 : PumpController) (now : ℚ) (r : RandInput) (ui : ℚ)
    (s0 : SimState) (hc : ctrlOK c0) (hr : randOK r) (hui : 0 ≤ ui) (hs : simOK s0) :
    0 ≤ filterAfterDegrade c0 now r ui s0 ∧ filterAfterDegrade c0 now r ui s0 ≤ 100 := by
  have hc2 : ctrlOK (ctrlAfterConsume c0 now s0) :=
    ctrlOK_consume _ _ _ (ctrlOK_check c0 now hc)
  have hl := levelAfterRamp_bounds c0 now r s0 hc hr hs
  have hf := filterAfterConsume_bounds c0 now s0 hs
  have hd := degradeFilter_nonneg_le (ctrlAfterConsume c0 now s0) (levelAfterRamp c0 now r s0)
    ui (filterAfterConsume c0 now s0) hc2.1 hc2.2.1 hl.2 hui hf.1
  exact ⟨hd.1, le_trans hd.2 hf.2⟩

theorem oilAfterDeplete_bounds (c0 : PumpController) (now : ℚ) (r : RandInput) (ui : ℚ)
    (s0 : SimState) (hc : ctrlOK c0) (hr : randOK r) (hui : 0 ≤ ui) (hs : simOK s0) :
    0 ≤ oilAfterDeplete c0 now r ui s0 ∧ oilAfterDeplete c0 now r ui s0 ≤ 100 := by
  have hc2 : ctrlOK (ctrlAfterConsume c0 now s0) :=
    ctrlOK_consume _ _ _ (ctrlOK_check c0 now hc)
  have hl := levelAfterRamp_bounds c0 now r s0 hc hr hs
  have ho := oilAfterConsume_bounds c0 now s0 hs
  have hd := depleteOil_nonneg_le (ctrlAfterConsume c0 now s0) (stateAfterRamp c0 now r s0)
    (levelAfterRamp c0 now r s0) ui (oilAfterConsume c0 now s0) hc2.2.2.1 hl.1 hui ho.1
  exact ⟨hd.1, le_trans hd.2 ho.2⟩

theorem ctrlOK_tick (sin2pi : ℚ → ℚ) (cst now ui : ℚ) (r : RandInput)
    (c0 : PumpController) (s0 : SimState) (hc : ctrlOK c0) :
    ctrlOK (tick sin2pi cst now ui r c0 s0).1 := by
  rw [tick_fst]
  rcases evalAlarms_state (ctrlAfterConsume c0 now s0) now ui
      (filterAfterDegrade c0 now r ui s0) (oilAfterDeplete c0 now r ui s0)
      (bearingAfter c0 now r ui s0) r.powerDraw r.leakDraw with h | ⟨t, h⟩
  · rw [h]; exact ctrlOK_consume _ _ _ (ctrlOK_check c0 now hc)
  · rw [h]; exact ctrlOK_enter _ _ _ (ctrlOK_consume _ _ _ (ctrlOK_check c0 now hc))

theorem simOK_tick (sin2pi : ℚ → ℚ) (cst now ui : ℚ) (r : RandInput)
    (c0 : PumpController) (s0 : SimState)
    (hc : ctrlOK c0) (hr : randOK r) (hui : 0 ≤ ui) (hs : simOK s0) :
    simOK (tick sin2pi cst now ui r c0 s0).2.1 := by
  refine ⟨?_, ?_, ?_, ?_, ?_, ?_⟩
  · rw [tick_currentLevel]; exact (levelAfterRamp_bounds c0 now r s0 hc hr hs).1
  · rw [tick_currentLevel]; exact (levelAfterRamp_bounds c0 now r s0 hc hr hs).2
  · rw [tick_filterStateValue]; exact (filterAfterDegrade_bounds c0 now r ui s0 hc hr hui hs).1
  · rw [tick_filterStateValue]; exact (filterAfterDegrade_bounds c0 now r ui s0 hc hr hui hs).2
  · rw [tick_oilLevelValue]; exact (oilAfterDeplete_bounds c0 now r ui s0 hc hr hui hs).1
  · rw [tick_oilLevelValue]; exact (oilAfterDeplete_bounds c0 now r ui s0 hc hr hui hs).2

theorem ctrlOK_applyCmd (c : PumpController) (cmd : PumpCmd) (hc : ctrlOK c) :
    ctrlOK (applyCmd c cmd) := by
  obtain ⟨h1, h2, h3, h4, h5, h6, h7, h8, h9⟩ := hc
  cases cmd with
  | stopPump => exact ⟨h1, h2, h3, h4, h5, le_refl 0, by norm_num [applyCmd, stop_pump], h8, h9⟩
  | startPump => exact ⟨h1, h2, h3, h4, h5, h4, h5, h8, h9⟩
  | setOperatingLevel level =>
      by_cases hl : 0 ≤ level ∧ level ≤ 100
      · simp only [applyCmd, set_operating_level, if_pos hl]
        exact ⟨h1, h2, h3, h4, h5, hl.1, hl.2, h8, h9⟩
      · simp only [applyCmd, set_operating_level, if_neg hl]
        exact ⟨h1, h2, h3, h4, h5, h6, h7, h8, h9⟩
  | setFilterDegradationRate m =>
      by_cases hm : m ≤ 0
      · simp only [applyCmd, set_filter_degradation_rate, if_pos hm]
        exact ⟨h1, h2, h3, h4, h5, h6, h7, h8, h9⟩
      · simp only [applyCmd, set_filter_degradation_rate, if_neg hm]
        exact ⟨rfl, ⟨m, by omega, rfl⟩, h3, h4, h5, h6, h7, h8, h9⟩
  | setAutoResetMinutes m =>
      by_cases hm : m ≤ 0
      · simp only [applyCmd, set_auto_reset_minutes, if_pos hm]
        exact ⟨h1, h2, h3, h4, h5, h6, h7, h8, h9⟩
      · simp only [applyCmd, set_auto_reset_minutes, if_neg hm]
        exact ⟨h1, h2, h3, h4, h5, h6, h7, h8, h9⟩
  | resetFilter => exact ⟨h1, h2, h3, h4, h5, h6, h7, h8, h9⟩
  | changeOil => exact ⟨h1, h2, h3, h4, h5, h6, h7, h8, h9⟩

theorem ctrlOK_foldCmds (cmds : List PumpCmd) :
    ∀ c : PumpController, ctrlOK c → ctrlOK (List.foldl applyCmd c cmds) := by
  induction cmds with
  | nil => intro c hc; exact hc
  | cons cmd cmds ih =>
      intro c hc
      simp only [List.foldl_cons]
      exact ih _ (ctrlOK_applyCmd c cmd hc)

theorem stepTick_fst (sin2pi : ℚ → ℚ) (cst : ℚ) (cs : PumpController × SimState) (ti : TickIn) :
    (stepTick sin2pi cst cs ti).1 =
      (tick sin2pi cst ti.now ti.ui ti.r (List.foldl applyCmd cs.1 ti.cmds) cs.2).1 := rfl

theorem stepTick_snd (sin2pi : ℚ → ℚ) (cst : ℚ) (cs : PumpController × SimState) (ti : TickIn) :
    (stepTick sin2pi cst cs ti).2 =
      (tick sin2pi cst ti.now ti.ui ti.r (List.foldl applyCmd cs.1 ti.cmds) cs.2).2.1 := rfl

theorem stepTick_invariant (sin2pi : ℚ → ℚ) (cst : ℚ) (cs : PumpController × SimState)
    (ti : TickIn) (hc : ctrlOK cs.1) (hs : simOK cs.2) (hti : tickInOK ti) :
    ctrlOK (stepTick sin2pi cst cs ti).1 ∧ simOK (stepTick sin2pi cst cs ti).2 := by
  obtain ⟨hr, hui⟩ := hti
  have hc2 := ctrlOK_foldCmds ti.cmds cs.1 hc
  constructor
  · rw [stepTick_fst]
    exact ctrlOK_tick sin2pi cst ti.now ti.ui ti.r _ cs.2 hc2
  · rw [stepTick_snd]
    exact simOK_tick sin2pi cst ti.now ti.ui ti.r _ cs.2 hc2 hr hui.le hs

theorem runTicks_invariant (sin2pi : ℚ → ℚ) (cst : ℚ) (tis : List TickIn) :
    ∀ cs : PumpController × SimState, (∀ ti ∈ tis, tickInOK ti) →
      ctrlOK cs.1 → simOK cs.2 →
      ctrlOK (runTicks sin2pi cst tis cs).1 ∧ simOK (runTicks sin2pi cst tis cs).2 := by
  induction tis with
  | nil => intro cs _ hc hs; exact ⟨hc, hs⟩
  | cons ti tis ih =>
      intro cs hok hc hs
      simp only [runTicks, List.foldl_cons] at ih ⊢
      have h1 := stepTick_invariant sin2pi cst cs ti hc hs (hok ti (List.mem_cons_self _ _))
      exact ih _ (fun t ht => hok t (List.mem_cons_of_mem _ ht)) h1.1 h1.2

/-- Claim C2: starting from the loop-top state (`filterState = 100`,
`oilLevel = 100`, `currentLevel = 0`) with any setter-accepted controller
configuration, after any run — any tick count, any interleaved relayed
commands, any ramp draws in range and any positive intervals — both
`filterStateValue` and `oilLevelValue` lie in `[0, 100]`; since every
prefix of a run is a run, the bound holds after each tick. -/
theorem filter_oil_bounds (sin2pi : ℚ → ℚ) (cst : ℚ) (tis : List TickIn)
    (c0 : PumpController) (hc : ctrlOK c0) (hok : ∀ ti ∈ tis, tickInOK ti) :
    0 ≤ (runTicks sin2pi cst tis (c0, initSimState c0)).2.filterStateValue ∧
    (runTicks sin2pi cst tis (c0, initSimState c0)).2.filterStateValue ≤ 100 ∧
    0 ≤ (runTicks sin2pi cst tis (c0, initSimState c0)).2.oilLevelValue ∧
    (runTicks sin2pi cst tis (c0, initSimState c0)).2.oilLevelValue ≤ 100 := by
  have hinit : simOK (initSimState c0) := by
    refine ⟨?_, ?_, ?_, ?_, ?_, ?_⟩ <;> norm_num [initSimState]
  have h := runTicks_invariant sin2pi cst tis (c0, initSimState c0) hok hc hinit
  obtain ⟨-, -, f0, f100, o0, o100⟩ := h.2
  exact ⟨f0, f100, o0, o100⟩

/-- Witness for `filter_oil_bounds`: one concrete two-tick run from the
default configuration, with a relayed `startPump` before the second tick. -/
theorem filter_oil_bounds_witness :
    0 ≤ (runTicks (fun _ => 0) 0
        [⟨[], 2, 2, ⟨1, 1, 0, 0, 1, 1, 1, 1⟩⟩,
         ⟨[PumpCmd.startPump], 4, 2, ⟨5, 3, 0, 0, 1, 1, 1, 1⟩⟩]
        (initController, initSimState initController)).2.filterStateValue ∧
    (runTicks (fun _ => 0) 0
        [⟨[], 2, 2, ⟨1, 1, 0, 0, 1, 1, 1, 1⟩⟩,
         ⟨[PumpCmd.startPump], 4, 2, ⟨5, 3, 0, 0, 1, 1, 1, 1⟩⟩]
        (initController, initSimState initController)).2.filterStateValue ≤ 100 ∧
    0 ≤ (runTicks (fun _ => 0) 0
        [⟨[], 2, 2, ⟨1, 1, 0, 0, 1, 1, 1, 1⟩⟩,
         ⟨[PumpCmd.startPump], 4, 2, ⟨5, 3, 0, 0, 1, 1, 1, 1⟩⟩]
        (initController, initSimState initController)).2.oilLevelValue ∧
    (runTicks (fun _ => 0) 0
        [⟨[], 2, 2, ⟨1, 1, 0, 0, 1, 1, 1, 1⟩⟩,
         ⟨[PumpCmd.startPump], 4, 2, ⟨5, 3, 0, 0, 1, 1, 1, 1⟩⟩]
        (initController, initSimState initController)).2.oilLevelValue ≤ 100 :=
  filter_oil_bounds (fun _ => 0) 0
    [⟨[], 2, 2, ⟨1, 1, 0, 0, 1, 1, 1, 1⟩⟩,
     ⟨[PumpCmd.startPump], 4, 2, ⟨5, 3, 0, 0, 1, 1, 1, 1⟩⟩]
    initController
    (by refine ⟨rfl, ⟨30, by norm_num, ?_⟩, ?_, ?_, ?_, ?_, ?_, ?_, ?_⟩ <;>
      norm_num [initController])
    (by
      intro ti hti
      fin_cases hti <;>
        exact ⟨⟨by norm_num, by norm_num, by norm_num, by norm_num⟩, by norm_num⟩)

theorem check_no_alarm (c : PumpController) (now : ℚ) (h : c.in_alarm_state = false) :
    check_alarm_auto_reset c now = (c, false) := by
  simp [check_alarm_auto_reset, h]

theorem consumeCommands_filter_of_ne (c : PumpController) (f o : ℚ)
    (h : c.last_command ≠ "resetFilter") : (consumeCommands c f o).2.1 = f := by
  simp [consumeCommands, h]

/-- Claim C6: with the controller not yet in alarm, if both `filterState <
20` and `oilLevel < 15` hold at evaluation time, the trigger block performs
exactly one `enterAlarmState` call, with type `FilterClogged` — the first
match wins in the fixed source order — and in general the block leaves the
controller unchanged or performs a single `enterAlarmState` call. -/
theorem alarm_first_match (c : PumpController) (now ui f oil bt pd ld : ℚ)
    (halarm : c.in_alarm_state = false) :
    (f < 20 → oil < 15 →
      evalAlarms c now ui f oil bt pd ld =
        (enter_alarm_state c ("FilterClogged") now, 1, "FilterClogged")) ∧
    ((evalAlarms c now ui f oil bt pd ld).1 = c ∨
      ∃ t : String, (evalAlarms c now ui f oil bt pd ld).1 = enter_alarm_state c t now) := by
  constructor
  · intro hf ho
    simp only [evalAlarms]
    split_ifs with h1 h2 h3 h4 h5 <;> simp_all [enter_alarm_state_in_alarm]
  · exact evalAlarms_state c now ui f oil bt pd ld

/-- Witness for `alarm_first_match`: a clogged filter and low oil at once
from the default controller give exactly the `FilterClogged` entry. -/
theorem alarm_first_match_witness :
    evalAlarms initController 0 2 10 5 30 1 1 =
      (enter_alarm_state initController ("FilterClogged") 0, 1, "FilterClogged") :=
  (alarm_first_match initController 0 2 10 5 30 1 1 rfl).1 (by norm_num) (by norm_num)

/-- Claim C8: run hours accrue exactly `(dt / 3600) * 12` in a tick whose
derived status is Running, are unchanged in any other tick, and are
monotone non-decreasing over every run. -/
theorem run_hours_accrual (sin2pi : ℚ → ℚ) (cst now ui : ℚ) (r : RandInput)
    (c0 : PumpController) (s0 : SimState) (hui : 0 ≤ ui) :
    ((tick sin2pi cst now ui r c0 s0).2.1.pumpState = "Running" →
      (tick sin2pi cst now ui r c0 s0).2.1.runHoursValue =
        s0.runHoursValue + (ui / 3600) * 12) ∧
    ((tick sin2pi cst now ui r c0 s0).2.1.pumpState ≠ "Running" →
      (tick sin2pi cst now ui r c0 s0).2.1.runHoursValue = s0.runHoursValue) ∧
    s0.runHoursValue ≤ (tick sin2pi cst now ui r c0 s0).2.1.runHoursValue ∧
    (∀ (tis : List TickIn) (cs : PumpController × SimState), (∀ ti ∈ tis, 0 ≤ ti.ui) →
      cs.2.runHoursValue ≤ (runTicks sin2pi cst tis cs).2.runHoursValue) := by
  refine ⟨?_, ?_, ?_, ?_⟩
  · intro h
    rw [tick_pumpState] at h
    rw [tick_runHoursValue, if_pos h]
  · intro h
    rw [tick_pumpState] at h
    rw [tick_runHoursValue, if_neg h]
  · rw [tick_runHoursValue]
    split_ifs
    · linarith
    · exact le_refl _
  · intro tis
    induction tis with
    | nil => intro cs _; exact le_refl _
    | cons ti tis ih =>
        intro cs hok
        simp only [runTicks, List.foldl_cons] at ih ⊢
        refine le_trans ?_ (ih _ (fun t ht => hok t (List.mem_cons_of_mem _ ht)))
        rw [stepTick_snd, tick_runHoursValue]
        split_ifs
        · have := hok ti (List.mem_cons_self _ _)
          linarith
        · exact le_refl _

/-- Witness for `run_hours_accrual`: monotonicity at one concrete tick. -/
theorem run_hours_accrual_witness :
    (initSimState initController).runHoursValue ≤
      (tick (fun _ => 0) 0 2 2 ⟨1, 1, 0, 0, 1, 1, 1, 1⟩ initController
        (initSimState initController)).2.1.runHoursValue :=
  (run_hours_accrual (fun _ => 0) 0 2 2 ⟨1, 1, 0, 0, 1, 1, 1, 1⟩ initController
    (initSimState initController) (by norm_num)).2.2.1

/-- Claim C9: a pending one-shot `resetFilter` event is lost when another
command arrives before the next tick: `stop_pump` overwrites
`lastCommand`, so the next tick leaves `filterStateValue` untouched (here
with the pump idle) and the overwritten command survives the tick — the
one-shot fires zero times. -/
theorem one_shot_lost (c : PumpController) (s : SimState) (sin2pi : ℚ → ℚ)
    (cst now ui : ℚ) (r : RandInput)
    (halarm : c.in_alarm_state = false) (hcl : s.currentLevel = 0) :
    ((reset_filter c).1.last_command = "resetFilter") ∧
    ((stop_pump (reset_filter c).1).1.last_command = "stopPump") ∧
    (tick sin2pi cst now ui r (stop_pump (reset_filter c).1).1 s).2.1.filterStateValue =
      s.filterStateValue ∧
    (tick sin2pi cst now ui r (stop_pump (reset_filter c).1).1 s).1.last_command =
      "stopPump" := by
  refine ⟨rfl, rfl, ?_, ?_⟩
  · rw [tick_filterStateValue]
    simp [filterAfterDegrade, filterAfterConsume, ctrlAfterConsume, levelAfterRamp,
      ctrlAfterReset, filterAfterReset, check_alarm_auto_reset, consumeCommands,
      degradeFilter, rampLevel, stop_pump, reset_filter, halarm, hcl]
  · rw [tick_fst, evalAlarms_last_command]
    simp [ctrlAfterConsume, ctrlAfterReset, filterAfterReset, check_alarm_auto_reset,
      consumeCommands, stop_pump, reset_filter, halarm]

/-- Witness for `one_shot_lost` at the default controller and loop-top
state. -/
theorem one_shot_lost_witness :
    ((reset_filter initController).1.last_command = "resetFilter") ∧
    ((stop_pump (reset_filter initController).1).1.last_command = "stopPump") ∧
    (tick (fun _ => 0) 0 2 2 ⟨1, 1, 0, 0, 1, 1, 1, 1⟩
        (stop_pump (reset_filter initController).1).1
        (initSimState initController)).2.1.filterStateValue =
      (initSimState initController).filterStateValue ∧
    (tick (fun _ => 0) 0 2 2 ⟨1, 1, 0, 0, 1, 1, 1, 1⟩
        (stop_pump (reset_filter initController).1).1
        (initSimState initController)).1.last_command = "stopPump" :=
  one_shot_lost initController (initSimState initController) (fun _ => 0) 0 2 2
    ⟨1, 1, 0, 0, 1, 1, 1, 1⟩ rfl rfl

/-- Counterexample to claim C7 as stated: with `resetFilter` pending and
`filterState = 10` but the pump running at level 75, the next tick does
reset the filter at the consumption step but then degrades it in the same
tick, so the tick ends with `filterStateValue` strictly below 100. -/
theorem reset_filter_counterexample :
    ({ initController with last_command := "resetFilter" } : PumpController).last_command =
      "resetFilter" ∧
    ({ initController with last_command := "resetFilter" } : PumpController).command_success =
      true ∧
    (⟨0, "Running", 75, 10, 100, 20, 35⟩ : SimState).filterStateValue = 10 ∧
    (tick (fun _ => 0) 0 0 2 ⟨1, 1, 0, 0, 1, 1, 1, 1⟩
        { initController with last_command := "resetFilter" }
        ⟨0, "Running", 75, 10, 100, 20, 35⟩).2.1.filterStateValue ≠ 100 := by
  refine ⟨rfl, rfl, rfl, ?_⟩
  rw [tick_filterStateValue]
  norm_num [filterAfterDegrade, filterAfterConsume, ctrlAfterConsume, levelAfterRamp,
    ctrlAfterReset, filterAfterReset, check_alarm_auto_reset, consumeCommands,
    degradeFilter, rampLevel, initController, max_def]

/-- Claim C7 (amended): with `resetFilter` pending, the next tick sets
`filterStateValue` to 100 at the consumption step and clears `lastCommand`
to None; the tick ends at exactly 100 when the pump stays idle
(`targetLevel = 0`, `currentLevel = 0`), while a running pump degrades the
fresh filter below 100 within the same tick; and once `lastCommand` is no
longer `resetFilter`, a later tick never raises `filterStateValue`. -/
theorem reset_filter_one_shot (sin2pi : ℚ → ℚ) (cst now ui : ℚ) (r : RandInput)
    (c : PumpController) (s : SimState)
    (hlast : c.last_command = "resetFilter") (hsucc : c.command_success = true)
    (halarm : c.in_alarm_state = false) (htgt : c.target_level = 0)
    (hcl : s.currentLevel = 0) :
    (tick sin2pi cst now ui r c s).2.1.filterStateValue = 100 ∧
    (tick sin2pi cst now ui r c s).1.last_command = "None" ∧
    (∀ (sin2pi2 : ℚ → ℚ) (cst2 now2 ui2 : ℚ) (r2 : RandInput) (c2 : PumpController)
        (s2 : SimState), ctrlOK c2 → randOK r2 → 0 ≤ ui2 →
      c2.last_command ≠ "resetFilter" → c2.in_alarm_state = false → simOK s2 →
      (tick sin2pi2 cst2 now2 ui2 r2 c2 s2).2.1.filterStateValue ≤ s2.filterStateValue) := by
  refine ⟨?_, ?_, ?_⟩
  · rw [tick_filterStateValue]
    simp [filterAfterDegrade, filterAfterConsume, ctrlAfterConsume, levelAfterRamp,
      ctrlAfterReset, filterAfterReset, check_alarm_auto_reset, consumeCommands,
      degradeFilter, rampLevel, halarm, hlast, hsucc, htgt, hcl]
  · rw [tick_fst, evalAlarms_last_command]
    simp [ctrlAfterConsume, ctrlAfterReset, filterAfterReset, check_alarm_auto_reset,
      consumeCommands, halarm, hlast, hsucc]
  · intro sin2pi2 cst2 now2 ui2 r2 c2 s2 hcOK hr2 hui2 hlast2 halarm2 hs2
    rw [tick_filterStateValue]
    have hreset : ctrlAfterReset c2 now2 = c2 := by
      unfold ctrlAfterReset
      rw [check_no_alarm c2 now2 halarm2]
    have h1 : filterAfterReset c2 now2 s2 = s2.filterStateValue := by
      unfold filterAfterReset
      rw [check_no_alarm c2 now2 halarm2]
      simp
    have h2 : filterAfterConsume c2 now2 s2 = s2.filterStateValue := by
      unfold filterAfterConsume
      rw [hreset, h1]
      exact consumeCommands_filter_of_ne c2 s2.filterStateValue s2.oilLevelValue hlast2
    have hc2 : ctrlOK (ctrlAfterConsume c2 now2 s2) :=
      ctrlOK_consume _ _ _ (ctrlOK_check c2 now2 hcOK)
    have hl := levelAfterRamp_bounds c2 now2 r2 s2 hcOK hr2 hs2
    have hd := degradeFilter_nonneg_le (ctrlAfterConsume c2 now2 s2)
      (levelAfterRamp c2 now2 r2 s2) ui2 (filterAfterConsume c2 now2 s2)
      hc2.1 hc2.2.1 hl.2 hui2 (by rw [h2]; exact hs2.2.2.1)
    unfold filterAfterDegrade
    calc degradeFilter (ctrlAfterConsume c2 now2 s2) (levelAfterRamp c2 now2 r2 s2) ui2
          (filterAfterConsume c2 now2 s2) ≤ filterAfterConsume c2 now2 s2 := hd.2
      _ = s2.filterStateValue := h2

/-- Witness for `reset_filter_one_shot`: the pending reset fires on the
next tick of an idle pump, ending at exactly 100 with the command
cleared. -/
theorem reset_filter_one_shot_witness :
    (tick (fun _ => 0) 0 0 2 ⟨1, 1, 0, 0, 1, 1, 1, 1⟩
        { initController with last_command := "resetFilter", target_level := 0 }
        (initSimState initController)).2.1.filterStateValue = 100 ∧
    (tick (fun _ => 0) 0 0 2 ⟨1, 1, 0, 0, 1, 1, 1, 1⟩
        { initController with last_command := "resetFilter", target_level := 0 }
        (initSimState initController)).1.last_command = "None" :=
  ⟨(reset_filter_one_shot (fun _ => 0) 0 0 2 ⟨1, 1, 0, 0, 1, 1, 1, 1⟩
      { initController with last_command := "resetFilter", target_level := 0 }
      (initSimState initController) rfl rfl rfl rfl rfl).1,
   (reset_filter_one_shot (fun _ => 0) 0 0 2 ⟨1, 1, 0, 0, 1, 1, 1, 1⟩
      { initController with last_command := "resetFilter", target_level := 0 }
      (initSimState initController) rfl rfl rfl rfl rfl).2.1⟩
